import Mathlib

/-!
Shallow embedding of the `htmlgopdf` Go package (MateoCaicedoW/htmlgopdf).

Modelling conventions:
* Go `float64` fields are modelled as `ℚ` (the code only assigns literals and
  compares against 0, so exact rationals are a faithful carrier).
* Go `time.Duration` (an `int64` of nanoseconds) is modelled as `Int`.
* PDF byte slices are modelled as `List Nat`; `nil` slices versus non-`nil`
  slices are distinguished with `Option`.
* Go `error` values are modelled as `String` (the message); a `nil` error is
  `Option.none`.  `fmt.Errorf("p: %w", e)` produces the message `"p: " ++ e`.
* The external chromedp browser client is modelled as a function from remote
  commands to results (`Browser`).  `chromedp.Run` executes the given actions
  in order, stopping at the first failing action.
-/

/-- The print-to-PDF request fields that `generatePDF` populates on
`page.PrintToPDFParams` (all other cdproto fields are never written by this
package and keep their zero values). -/
structure PrintToPDFParams where
  printBackground : Bool
  landscape : Bool
  displayHeaderFooter : Bool
  scale : ℚ
  paperWidth : ℚ
  paperHeight : ℚ
  marginTop : ℚ
  marginBottom : ℚ
  marginLeft : ℚ
  marginRight : ℚ
  headerTemplate : String
  footerTemplate : String
deriving DecidableEq

/-- The remote commands the generator can issue to the external browser
process (the chromedp actions used by the source). -/
inductive Cmd where
  | navigate (url : String)
  | waitReady (sel : String)
  | waitVisible (sel : String)
  | sleep (d : Int)
  | printToPDF (params : PrintToPDFParams)
deriving DecidableEq

/-- `true` exactly for the waiting commands (readiness, visibility, sleep). -/
def Cmd.isWait : Cmd → Bool
  | .waitReady _ => true
  | .waitVisible _ => true
  | .sleep _ => true
  | _ => false

/-- `PDFOptions` from options.go: the flat configuration record. -/
structure PDFOptions where
  Format : String
  Width : ℚ
  Height : ℚ
  MarginTop : ℚ
  MarginBottom : ℚ
  MarginLeft : ℚ
  MarginRight : ℚ
  Landscape : Bool
  PrintBackground : Bool
  Scale : ℚ
  DisplayHeaderFooter : Bool
  HeaderTemplate : String
  FooterTemplate : String
  WaitForSelector : String
  WaitTime : Int
  Timeout : Int
deriving DecidableEq

/-- `DefaultOptions` from options.go (durations in nanoseconds). -/
def DefaultOptions : PDFOptions where
  Format := "A4"
  Width := 0
  Height := 0
  MarginTop := 0.4
  MarginBottom := 0.4
  MarginLeft := 0.4
  MarginRight := 0.4
  Landscape := false
  PrintBackground := true
  Scale := 1.0
  DisplayHeaderFooter := false
  HeaderTemplate := ""
  FooterTemplate := ""
  WaitForSelector := ""
  WaitTime := 2000000000
  Timeout := 30000000000

/-- `Generator` from generator.go.  The Go field is a pointer `*PDFOptions`;
`NewGenerator` never stores `nil` into it, so the record itself is carried. -/
structure Generator where
  options : PDFOptions
deriving DecidableEq

/-- `NewGenerator` from generator.go; the argument models the Go
`*PDFOptions` parameter, `none` being the `nil` pointer. -/
def NewGenerator (options : Option PDFOptions) : Generator :=
  match options with
  | none => { options := DefaultOptions }
  | some o => { options := o }

/-- `OptionsBuilder` from builder.go (the record its pointer designates). -/
structure OptionsBuilder where
  options : PDFOptions
deriving DecidableEq

/-- `WithOptions` from builder.go. -/
def WithOptions : OptionsBuilder :=
  { options := DefaultOptions }

/-- `OptionsBuilder.Format` from builder.go. -/
def OptionsBuilder.Format (b : OptionsBuilder) (format : String) : OptionsBuilder :=
  { b with options := { b.options with Format := format } }

/-- `OptionsBuilder.Size` from builder.go: sets custom size and clears the
format. -/
def OptionsBuilder.Size (b : OptionsBuilder) (width height : ℚ) : OptionsBuilder :=
  { b with options := { b.options with Width := width, Height := height, Format := "" } }

/-- `OptionsBuilder.Margins` from builder.go. -/
def OptionsBuilder.Margins (b : OptionsBuilder) (top bottom left right : ℚ) : OptionsBuilder :=
  { b with options := { b.options with
      MarginTop := top, MarginBottom := bottom, MarginLeft := left, MarginRight := right } }

/-- `OptionsBuilder.Landscape` from builder.go. -/
def OptionsBuilder.Landscape (b : OptionsBuilder) : OptionsBuilder :=
  { b with options := { b.options with Landscape := true } }

/-- `OptionsBuilder.Portrait` from builder.go. -/
def OptionsBuilder.Portrait (b : OptionsBuilder) : OptionsBuilder :=
  { b with options := { b.options with Landscape := false } }

/-- `OptionsBuilder.Scale` from builder.go. -/
def OptionsBuilder.Scale (b : OptionsBuilder) (scale : ℚ) : OptionsBuilder :=
  { b with options := { b.options with Scale := scale } }

/-- `OptionsBuilder.PrintBackground` from builder.go. -/
def OptionsBuilder.PrintBackground (b : OptionsBuilder) (enable : Bool) : OptionsBuilder :=
  { b with options := { b.options with PrintBackground := enable } }

/-- `OptionsBuilder.HeaderFooter` from builder.go: enables the header/footer
flag and stores both templates. -/
def OptionsBuilder.HeaderFooter (b : OptionsBuilder) (header footer : String) : OptionsBuilder :=
  { b with options := { b.options with
      DisplayHeaderFooter := true, HeaderTemplate := header, FooterTemplate := footer } }

/-- `OptionsBuilder.WaitFor` from builder.go. -/
def OptionsBuilder.WaitFor (b : OptionsBuilder) (selector : String) : OptionsBuilder :=
  { b with options := { b.options with WaitForSelector := selector } }

/-- `OptionsBuilder.WaitTime` from builder.go. -/
def OptionsBuilder.WaitTime (b : OptionsBuilder) (duration : Int) : OptionsBuilder :=
  { b with options := { b.options with WaitTime := duration } }

/-- `OptionsBuilder.Timeout` from builder.go. -/
def OptionsBuilder.Timeout (b : OptionsBuilder) (duration : Int) : OptionsBuilder :=
  { b with options := { b.options with Timeout := duration } }

/-- `OptionsBuilder.Build` from builder.go (the stored pointer is not `nil`). -/
def OptionsBuilder.Build (b : OptionsBuilder) : Generator :=
  NewGenerator (some b.options)

/-- UTF-8 encoding of one code point, as byte values (Go strings are UTF-8
byte sequences and `url.PathEscape` works on the bytes). -/
def utf8Bytes (c : Char) : List Nat :=
  let n := c.toNat
  if n < 128 then [n]
  else if n < 2048 then [192 + n / 64, 128 + n % 64]
  else if n < 65536 then [224 + n / 4096, 128 + n / 64 % 64, 128 + n % 64]
  else [240 + n / 262144, 128 + n / 4096 % 64, 128 + n / 64 % 64, 128 + n % 64]

/-- Go `net/url.shouldEscape` for the path-segment encoding mode used by
`url.PathEscape`: alphanumerics and `-_.~` are kept, of the RFC 3986 reserved
set `$&+,/:;=?@` exactly `/;,?` are escaped, everything else is escaped. -/
def shouldEscapePathSegment (c : Nat) : Bool :=
  if (97 ≤ c && c ≤ 122) || (65 ≤ c && c ≤ 90) || (48 ≤ c && c ≤ 57) then false
  else if c == 45 || c == 95 || c == 46 || c == 126 then false
  else if c == 36 || c == 38 || c == 43 || c == 44 || c == 47 || c == 58 ||
      c == 59 || c == 61 || c == 63 || c == 64 then
    c == 47 || c == 59 || c == 44 || c == 63
  else true

/-- Upper-case hexadecimal digit, as used by Go's `url.escape`. -/
def upperHex (n : Nat) : Char :=
  "0123456789ABCDEF".toList.getD n '0'

/-- One byte of `url.PathEscape` output: `%XX` when escaped, else the byte. -/
def escapeByte (b : Nat) : List Char :=
  if shouldEscapePathSegment b then ['%', upperHex (b / 16), upperHex (b % 16)]
  else [Char.ofNat b]

/-- Go `url.PathEscape`. -/
def pathEscape (s : String) : String :=
  String.mk ((s.toList.flatMap utf8Bytes).flatMap escapeByte)

/-- The data URL built by `Generator.FromHTML` (generator.go line 42). -/
def dataURL (htmlContent : String) : String :=
  "data:text/html;charset=utf-8," ++ pathEscape htmlContent

/-- `Generator.waitForConditions` from generator.go, as the list of remote
wait commands it contributes (a `chromedp.Tasks` of the collected actions, or
the default 500 ms sleep when none are configured). -/
def Generator.waitForConditions (g : Generator) : List Cmd :=
  let actions : List Cmd :=
    (if g.options.WaitForSelector ≠ "" then [Cmd.waitVisible g.options.WaitForSelector] else [])
      ++ (if g.options.WaitTime > 0 then [Cmd.sleep g.options.WaitTime] else [])
  if actions = [] then [Cmd.sleep 500000000] else actions

/-- The paper width and height `Generator.generatePDF` assigns (generator.go
lines 124-145): when `Format` is non-empty, Go's `switch g.options.Format`
on the five named formats (no default case, so an unmatched name leaves the
zero values of the struct literal); otherwise the custom `Width`/`Height`
when both are positive, else the zero values. -/
def paperSize (o : PDFOptions) : ℚ × ℚ :=
  if o.Format ≠ "" then
    if o.Format = "A4" then (8.27, 11.7)
    else if o.Format = "A3" then (11.7, 16.5)
    else if o.Format = "Letter" then (8.5, 11.0)
    else if o.Format = "Legal" then (8.5, 14.0)
    else if o.Format = "Tabloid" then (11.0, 17.0)
    else (0, 0)
  else if 0 < o.Width ∧ 0 < o.Height then (o.Width, o.Height)
  else (0, 0)

/-- The `page.PrintToPDFParams` value built by `Generator.generatePDF`
(generator.go lines 115-160).  The Go code initialises the struct literal
with the four flag/scale fields (everything else zero), then assigns the
paper size (`paperSize`), then the four margins, then each template only
when non-empty (so an empty option leaves the zero value `""`, which
coincides with the option).  Each field below is the value it holds after
that assignment sequence. -/
def printParams (o : PDFOptions) : PrintToPDFParams :=
  { printBackground := o.PrintBackground
    landscape := o.Landscape
    displayHeaderFooter := o.DisplayHeaderFooter
    scale := o.Scale
    paperWidth := (paperSize o).1
    paperHeight := (paperSize o).2
    marginTop := o.MarginTop
    marginBottom := o.MarginBottom
    marginLeft := o.MarginLeft
    marginRight := o.MarginRight
    headerTemplate := if o.HeaderTemplate ≠ "" then o.HeaderTemplate else ""
    footerTemplate := if o.FooterTemplate ≠ "" then o.FooterTemplate else "" }

/-- The external browser client (chromedp and the browser behind it), as an
uninterpreted responder: each issued remote command either fails with an
error message or succeeds, `printToPDF` returning the PDF bytes. -/
def Browser : Type :=
  Cmd → Except String (List Nat)

/-- `Generator.generatePDF` from generator.go: issue the print-to-PDF command
built from the options and wrap any client error as
`failed to generate PDF: <err>`. -/
def Generator.generatePDF (g : Generator) (br : Browser) : Except String (List Nat) :=
  match br (Cmd.printToPDF (printParams g.options)) with
  | Except.error e => Except.error ("failed to generate PDF: " ++ e)
  | Except.ok b => Except.ok b

/-- `chromedp.Run` on plain commands: execute in order, stop at the first
failing command; return the issued commands and the first error. -/
def runCmds (br : Browser) : List Cmd → List Cmd × Option String
  | [] => ([], none)
  | c :: cs =>
    match br c with
    | Except.error e => ([c], some e)
    | Except.ok _ =>
      let r := runCmds br cs
      (c :: r.1, r.2)

/-- The body of a conversion call: the single `chromedp.Run` with
`Navigate(target)`, `WaitReady("body")`, `waitForConditions()`, and the final
`ActionFunc` that calls `generatePDF`.  Returns the issued command trace and
the run's outcome. -/
def Generator.runConversion (g : Generator) (br : Browser) (target : String) :
    List Cmd × Except String (List Nat) :=
  let pre := runCmds br (Cmd.navigate target :: Cmd.waitReady "body" :: g.waitForConditions)
  match pre.2 with
  | some e => (pre.1, Except.error e)
  | none => (pre.1 ++ [Cmd.printToPDF (printParams g.options)], g.generatePDF br)

/-- A Go `([]byte, error)` return value: `data` is the byte slice (`none` for
a `nil` slice), `err` the error (`none` for a `nil` error). -/
structure GoResult where
  data : Option (List Nat)
  err : Option String
deriving DecidableEq

/-- `Generator.FromHTML` from generator.go: run the conversion against the
data URL of the HTML content; on error return `(nil, failed to generate
PDF: <err>)`, on success the PDF bytes. -/
def Generator.FromHTML (g : Generator) (br : Browser) (htmlContent : String) : GoResult :=
  match (g.runConversion br (dataURL htmlContent)).2 with
  | Except.error e => { data := none, err := some ("failed to generate PDF: " ++ e) }
  | Except.ok b => { data := some b, err := none }

/-- The remote commands a `FromHTML` call issues. -/
def Generator.FromHTMLTrace (g : Generator) (br : Browser) (htmlContent : String) : List Cmd :=
  (g.runConversion br (dataURL htmlContent)).1

/-- `Generator.FromURL` from generator.go: like `FromHTML` but navigating to
the given URL and wrapping errors as `failed to generate PDF from URL:`. -/
def Generator.FromURL (g : Generator) (br : Browser) (url : String) : GoResult :=
  match (g.runConversion br url).2 with
  | Except.error e => { data := none, err := some ("failed to generate PDF from URL: " ++ e) }
  | Except.ok b => { data := some b, err := none }

/-- The remote commands a `FromURL` call issues. -/
def Generator.FromURLTrace (g : Generator) (br : Browser) (url : String) : List Cmd :=
  (g.runConversion br url).1

/-- Top-level `FromHTML` from generator.go. -/
def FromHTML (br : Browser) (htmlContent : String) : GoResult :=
  let generator := NewGenerator (some DefaultOptions)
  generator.FromHTML br htmlContent

/-- Top-level `FromURL` from generator.go. -/
def FromURL (br : Browser) (url : String) : GoResult :=
  let generator := NewGenerator (some DefaultOptions)
  generator.FromURL br url

/-- `OptionsBuilder.Generate` from builder.go. -/
def OptionsBuilder.Generate (b : OptionsBuilder) (br : Browser) (htmlContent : String) : GoResult :=
  (b.Build).FromHTML br htmlContent

/-- `OptionsBuilder.GenerateFromURL` from builder.go. -/
def OptionsBuilder.GenerateFromURL (b : OptionsBuilder) (br : Browser) (url : String) : GoResult :=
  (b.Build).FromURL br url

/-- State-threading form of `Generator.waitForConditions`: the pair carries
the options record as the call leaves it.  The source only reads
`g.options.WaitForSelector` and `g.options.WaitTime`; it assigns no field. -/
def Generator.waitForConditionsS (g : Generator) : List Cmd × PDFOptions :=
  (g.waitForConditions, g.options)

/-- State-threading form of `Generator.generatePDF`: the source reads option
fields to build the request and assigns no field. -/
def Generator.generatePDFS (g : Generator) (br : Browser) : Except String (List Nat) × PDFOptions :=
  (g.generatePDF br, g.options)

/-- State-threading form of `Generator.FromHTML`, passing the options record
through each sub-operation (`waitForConditions`, then on success
`generatePDF`); the record a call returns is the one the Go heap holds after
the call. -/
def Generator.FromHTMLS (g : Generator) (br : Browser) (htmlContent : String) :
    GoResult × PDFOptions :=
  let w := g.waitForConditionsS
  let pre := runCmds br (Cmd.navigate (dataURL htmlContent) :: Cmd.waitReady "body" :: w.1)
  match pre.2 with
  | some e => ({ data := none, err := some ("failed to generate PDF: " ++ e) }, w.2)
  | none =>
    let p := (Generator.mk w.2).generatePDFS br
    match p.1 with
    | Except.error e => ({ data := none, err := some ("failed to generate PDF: " ++ e) }, p.2)
    | Except.ok b => ({ data := some b, err := none }, p.2)

/-- State-threading form of `Generator.FromURL`. -/
def Generator.FromURLS (g : Generator) (br : Browser) (url : String) :
    GoResult × PDFOptions :=
  let w := g.waitForConditionsS
  let pre := runCmds br (Cmd.navigate url :: Cmd.waitReady "body" :: w.1)
  match pre.2 with
  | some e => ({ data := none, err := some ("failed to generate PDF from URL: " ++ e) }, w.2)
  | none =>
    let p := (Generator.mk w.2).generatePDFS br
    match p.1 with
    | Except.error e => ({ data := none, err := some ("failed to generate PDF from URL: " ++ e) }, p.2)
    | Except.ok b => ({ data := some b, err := none }, p.2)

/-- The full command program a conversion call submits: navigate to the
target, wait for body readiness, the configured wait conditions, print to
PDF. -/
def Generator.genProgram (g : Generator) (target : String) : List Cmd :=
  Cmd.navigate target :: Cmd.waitReady "body" ::
    (g.waitForConditions ++ [Cmd.printToPDF (printParams g.options)])

/-- The paper-size table realised by the format switch in `generatePDF`:
named formats map to fixed width × height in inches, any other name to the
zero size. -/
def formatSize (f : String) : ℚ × ℚ :=
  if f = "A4" then (8.27, 11.7)
  else if f = "A3" then (11.7, 16.5)
  else if f = "Letter" then (8.5, 11.0)
  else if f = "Legal" then (8.5, 14.0)
  else if f = "Tabloid" then (11.0, 17.0)
  else (0, 0)

/-- A browser on which every command succeeds and printing yields the four
bytes of a PDF magic header. -/
def okBr : Browser := fun _ => Except.ok [37, 80, 68, 70]

/-- A browser whose navigation fails with the message `boom`. -/
def navFailBr : Browser := fun c =>
  match c with
  | Cmd.navigate _ => Except.error "boom"
  | _ => Except.ok []

/-- A browser whose print-to-PDF command fails with the message `boom`. -/
def printFailBr : Browser := fun c =>
  match c with
  | Cmd.printToPDF _ => Except.error "boom"
  | _ => Except.ok []

/-! ## Helper lemmas about the command runner -/

/-- The issued commands of a run are an initial segment of the submitted
command list. -/
theorem runCmds_front (br : Browser) (cs : List Cmd) :
    ∃ rest, (runCmds br cs).1 ++ rest = cs := by
  induction cs with
  | nil => exact ⟨[], rfl⟩
  | cons c cs ih =>
    simp only [runCmds]
    cases br c with
    | error e => exact ⟨cs, rfl⟩
    | ok b =>
      obtain ⟨rest, hrest⟩ := ih
      exact ⟨rest, by simp [hrest]⟩

/-- A run that reports no error has executed every submitted command. -/
theorem runCmds_complete (br : Browser) (cs : List Cmd)
    (h : (runCmds br cs).2 = none) : (runCmds br cs).1 = cs := by
  induction cs with
  | nil => rfl
  | cons c cs ih =>
    simp only [runCmds] at h ⊢
    cases hc : br c with
    | error e =>
      rw [hc] at h
      simp at h
    | ok b =>
      rw [hc] at h
      simp at h ⊢
      exact ih h

/-- A run that reports an error got that error from one of the commands it
issued. -/
theorem runCmds_error_source (br : Browser) (cs : List Cmd) (e : String)
    (h : (runCmds br cs).2 = some e) :
    ∃ c ∈ (runCmds br cs).1, br c = Except.error e := by
  induction cs with
  | nil => simp [runCmds] at h
  | cons c cs ih =>
    simp only [runCmds] at h ⊢
    cases hc : br c with
    | error e2 =>
      rw [hc] at h
      simp only [Option.some.injEq] at h
      subst h
      refine ⟨c, ?_, hc⟩
      show c ∈ [c]
      simp
    | ok b =>
      rw [hc] at h
      simp only at h
      obtain ⟨c2, hc2, hbrc2⟩ := ih h
      refine ⟨c2, ?_, hbrc2⟩
      show c2 ∈ c :: (runCmds br cs).1
      exact List.mem_cons_of_mem _ hc2

/-! ## Claims -/

/-- **C8**: `NewGenerator nil` falls back to `DefaultOptions`, whose values
are Format `A4`, all four margins `0.4`, portrait (Landscape `false`),
PrintBackground `true`, Scale `1.0`, WaitTime 2 s, Timeout 30 s (durations in
nanoseconds); hence a generator always carries an options record and no
conversion call dereferences a nil options pointer. -/
theorem newGenerator_nil_uses_defaults :
    NewGenerator none = { options := DefaultOptions } ∧
    DefaultOptions.Format = "A4" ∧
    DefaultOptions.MarginTop = 0.4 ∧
    DefaultOptions.MarginBottom = 0.4 ∧
    DefaultOptions.MarginLeft = 0.4 ∧
    DefaultOptions.MarginRight = 0.4 ∧
    DefaultOptions.Landscape = false ∧
    DefaultOptions.PrintBackground = true ∧
    DefaultOptions.Scale = 1.0 ∧
    DefaultOptions.WaitTime = 2000000000 ∧
    DefaultOptions.Timeout = 30000000000 :=
  ⟨rfl, rfl, rfl, rfl, rfl, rfl, rfl, rfl, rfl, rfl, rfl⟩

/-- **C7**: the top-level convenience functions agree with a generator built
from `DefaultOptions`, and the builder's `Generate`/`GenerateFromURL` agree
with `Build()` followed by `FromHTML`/`FromURL`, for every browser client,
every HTML string or URL, and every builder state. -/
theorem convenience_functions_equiv (br : Browser) (htmlContent url : String)
    (b : OptionsBuilder) :
    FromHTML br htmlContent = (NewGenerator (some DefaultOptions)).FromHTML br htmlContent ∧
    FromURL br url = (NewGenerator (some DefaultOptions)).FromURL br url ∧
    b.Generate br htmlContent = (b.Build).FromHTML br htmlContent ∧
    b.GenerateFromURL br url = (b.Build).FromURL br url :=
  ⟨rfl, rfl, rfl, rfl⟩

/-- **C6 counterexample**: `Size` does not leave every field other than
`Width`/`Height` unchanged: starting from the default builder (Format
`"A4"`), `Size 5 7` clears the `Format` field to the empty string. -/
theorem size_touches_format_counterexample :
    WithOptions.options.Format = "A4" ∧
    (WithOptions.Size 5 7).options.Format = "" ∧
    (WithOptions.Size 5 7).options.Format ≠ WithOptions.options.Format := by
  refine ⟨rfl, rfl, ?_⟩
  intro h
  rw [show (WithOptions.Size 5 7).options.Format = "" from rfl,
      show WithOptions.options.Format = "A4" from rfl] at h
  exact absurd h (by decide)

/-- **C6 amended**: every `OptionsBuilder` method updates exactly the option
fields of the parameter it names and leaves every other field of the record
unchanged, with two additions forced by the source: `Size` also clears
`Format` to the empty string, and `HeaderFooter` also sets
`DisplayHeaderFooter` to `true`. -/
theorem builder_methods_frame (b : OptionsBuilder) (fmt : String) (w h : ℚ)
    (mt mb ml mr : ℚ) (sc : ℚ) (en : Bool) (hd ft sel : String) (d1 d2 : Int) :
    ((b.Format fmt).options.Format = fmt ∧
      (b.Format fmt).options.Width = b.options.Width ∧
      (b.Format fmt).options.Height = b.options.Height ∧
      (b.Format fmt).options.MarginTop = b.options.MarginTop ∧
      (b.Format fmt).options.MarginBottom = b.options.MarginBottom ∧
      (b.Format fmt).options.MarginLeft = b.options.MarginLeft ∧
      (b.Format fmt).options.MarginRight = b.options.MarginRight ∧
      (b.Format fmt).options.Landscape = b.options.Landscape ∧
      (b.Format fmt).options.PrintBackground = b.options.PrintBackground ∧
      (b.Format fmt).options.Scale = b.options.Scale ∧
      (b.Format fmt).options.DisplayHeaderFooter = b.options.DisplayHeaderFooter ∧
      (b.Format fmt).options.HeaderTemplate = b.options.HeaderTemplate ∧
      (b.Format fmt).options.FooterTemplate = b.options.FooterTemplate ∧
      (b.Format fmt).options.WaitForSelector = b.options.WaitForSelector ∧
      (b.Format fmt).options.WaitTime = b.options.WaitTime ∧
      (b.Format fmt).options.Timeout = b.options.Timeout) ∧
    ((b.Size w h).options.Format = "" ∧
      (b.Size w h).options.Width = w ∧
      (b.Size w h).options.Height = h ∧
      (b.Size w h).options.MarginTop = b.options.MarginTop ∧
      (b.Size w h).options.MarginBottom = b.options.MarginBottom ∧
      (b.Size w h).options.MarginLeft = b.options.MarginLeft ∧
      (b.Size w h).options.MarginRight = b.options.MarginRight ∧
      (b.Size w h).options.Landscape = b.options.Landscape ∧
      (b.Size w h).options.PrintBackground = b.options.PrintBackground ∧
      (b.Size w h).options.Scale = b.options.Scale ∧
      (b.Size w h).options.DisplayHeaderFooter = b.options.DisplayHeaderFooter ∧
      (b.Size w h).options.HeaderTemplate = b.options.HeaderTemplate ∧
      (b.Size w h).options.FooterTemplate = b.options.FooterTemplate ∧
      (b.Size w h).options.WaitForSelector = b.options.WaitForSelector ∧
      (b.Size w h).options.WaitTime = b.options.WaitTime ∧
      (b.Size w h).options.Timeout = b.options.Timeout) ∧
    ((b.Margins mt mb ml mr).options.Format = b.options.Format ∧
      (b.Margins mt mb ml mr).options.Width = b.options.Width ∧
      (b.Margins mt mb ml mr).options.Height = b.options.Height ∧
      (b.Margins mt mb ml mr).options.MarginTop = mt ∧
      (b.Margins mt mb ml mr).options.MarginBottom = mb ∧
      (b.Margins mt mb ml mr).options.MarginLeft = ml ∧
      (b.Margins mt mb ml mr).options.MarginRight = mr ∧
      (b.Margins mt mb ml mr).options.Landscape = b.options.Landscape ∧
      (b.Margins mt mb ml mr).options.PrintBackground = b.options.PrintBackground ∧
      (b.Margins mt mb ml mr).options.Scale = b.options.Scale ∧
      (b.Margins mt mb ml mr).options.DisplayHeaderFooter = b.options.DisplayHeaderFooter ∧
      (b.Margins mt mb ml mr).options.HeaderTemplate = b.options.HeaderTemplate ∧
      (b.Margins mt mb ml mr).options.FooterTemplate = b.options.FooterTemplate ∧
      (b.Margins mt mb ml mr).options.WaitForSelector = b.options.WaitForSelector ∧
      (b.Margins mt mb ml mr).options.WaitTime = b.options.WaitTime ∧
      (b.Margins mt mb ml mr).options.Timeout = b.options.Timeout) ∧
    ((b.Landscape).options.Format = b.options.Format ∧
      (b.Landscape).options.Width = b.options.Width ∧
      (b.Landscape).options.Height = b.options.Height ∧
      (b.Landscape).options.MarginTop = b.options.MarginTop ∧
      (b.Landscape).options.MarginBottom = b.options.MarginBottom ∧
      (b.Landscape).options.MarginLeft = b.options.MarginLeft ∧
      (b.Landscape).options.MarginRight = b.options.MarginRight ∧
      (b.Landscape).options.Landscape = true ∧
      (b.Landscape).options.PrintBackground = b.options.PrintBackground ∧
      (b.Landscape).options.Scale = b.options.Scale ∧
      (b.Landscape).options.DisplayHeaderFooter = b.options.DisplayHeaderFooter ∧
      (b.Landscape).options.HeaderTemplate = b.options.HeaderTemplate ∧
      (b.Landscape).options.FooterTemplate = b.options.FooterTemplate ∧
      (b.Landscape).options.WaitForSelector = b.options.WaitForSelector ∧
      (b.Landscape).options.WaitTime = b.options.WaitTime ∧
      (b.Landscape).options.Timeout = b.options.Timeout) ∧
    ((b.Portrait).options.Format = b.options.Format ∧
      (b.Portrait).options.Width = b.options.Width ∧
      (b.Portrait).options.Height = b.options.Height ∧
      (b.Portrait).options.MarginTop = b.options.MarginTop ∧
      (b.Portrait).options.MarginBottom = b.options.MarginBottom ∧
      (b.Portrait).options.MarginLeft = b.options.MarginLeft ∧
      (b.Portrait).options.MarginRight = b.options.MarginRight ∧
      (b.Portrait).options.Landscape = false ∧
      (b.Portrait).options.PrintBackground = b.options.PrintBackground ∧
      (b.Portrait).options.Scale = b.options.Scale ∧
      (b.Portrait).options.DisplayHeaderFooter = b.options.DisplayHeaderFooter ∧
      (b.Portrait).options.HeaderTemplate = b.options.HeaderTemplate ∧
      (b.Portrait).options.FooterTemplate = b.options.FooterTemplate ∧
      (b.Portrait).options.WaitForSelector = b.options.WaitForSelector ∧
      (b.Portrait).options.WaitTime = b.options.WaitTime ∧
      (b.Portrait).options.Timeout = b.options.Timeout) ∧
    ((b.Scale sc).options.Format = b.options.Format ∧
      (b.Scale sc).options.Width = b.options.Width ∧
      (b.Scale sc).options.Height = b.options.Height ∧
      (b.Scale sc).options.MarginTop = b.options.MarginTop ∧
      (b.Scale sc).options.MarginBottom = b.options.MarginBottom ∧
      (b.Scale sc).options.MarginLeft = b.options.MarginLeft ∧
      (b.Scale sc).options.MarginRight = b.options.MarginRight ∧
      (b.Scale sc).options.Landscape = b.options.Landscape ∧
      (b.Scale sc).options.PrintBackground = b.options.PrintBackground ∧
      (b.Scale sc).options.Scale = sc ∧
      (b.Scale sc).options.DisplayHeaderFooter = b.options.DisplayHeaderFooter ∧
      (b.Scale sc).options.HeaderTemplate = b.options.HeaderTemplate ∧
      (b.Scale sc).options.FooterTemplate = b.options.FooterTemplate ∧
      (b.Scale sc).options.WaitForSelector = b.options.WaitForSelector ∧
      (b.Scale sc).options.WaitTime = b.options.WaitTime ∧
      (b.Scale sc).options.Timeout = b.options.Timeout) ∧
    ((b.PrintBackground en).options.Format = b.options.Format ∧
      (b.PrintBackground en).options.Width = b.options.Width ∧
      (b.PrintBackground en).options.Height = b.options.Height ∧
      (b.PrintBackground en).options.MarginTop = b.options.MarginTop ∧
      (b.PrintBackground en).options.MarginBottom = b.options.MarginBottom ∧
      (b.PrintBackground en).options.MarginLeft = b.options.MarginLeft ∧
      (b.PrintBackground en).options.MarginRight = b.options.MarginRight ∧
      (b.PrintBackground en).options.Landscape = b.options.Landscape ∧
      (b.PrintBackground en).options.PrintBackground = en ∧
      (b.PrintBackground en).options.Scale = b.options.Scale ∧
      (b.PrintBackground en).options.DisplayHeaderFooter = b.options.DisplayHeaderFooter ∧
      (b.PrintBackground en).options.HeaderTemplate = b.options.HeaderTemplate ∧
      (b.PrintBackground en).options.FooterTemplate = b.options.FooterTemplate ∧
      (b.PrintBackground en).options.WaitForSelector = b.options.WaitForSelector ∧
      (b.PrintBackground en).options.WaitTime = b.options.WaitTime ∧
      (b.PrintBackground en).options.Timeout = b.options.Timeout) ∧
    ((b.HeaderFooter hd ft).options.Format = b.options.Format ∧
      (b.HeaderFooter hd ft).options.Width = b.options.Width ∧
      (b.HeaderFooter hd ft).options.Height = b.options.Height ∧
      (b.HeaderFooter hd ft).options.MarginTop = b.options.MarginTop ∧
      (b.HeaderFooter hd ft).options.MarginBottom = b.options.MarginBottom ∧
      (b.HeaderFooter hd ft).options.MarginLeft = b.options.MarginLeft ∧
      (b.HeaderFooter hd ft).options.MarginRight = b.options.MarginRight ∧
      (b.HeaderFooter hd ft).options.Landscape = b.options.Landscape ∧
      (b.HeaderFooter hd ft).options.PrintBackground = b.options.PrintBackground ∧
      (b.HeaderFooter hd ft).options.Scale = b.options.Scale ∧
      (b.HeaderFooter hd ft).options.DisplayHeaderFooter = true ∧
      (b.HeaderFooter hd ft).options.HeaderTemplate = hd ∧
      (b.HeaderFooter hd ft).options.FooterTemplate = ft ∧
      (b.HeaderFooter hd ft).options.WaitForSelector = b.options.WaitForSelector ∧
      (b.HeaderFooter hd ft).options.WaitTime = b.options.WaitTime ∧
      (b.HeaderFooter hd ft).options.Timeout = b.options.Timeout) ∧
    ((b.WaitFor sel).options.Format = b.options.Format ∧
      (b.WaitFor sel).options.Width = b.options.Width ∧
      (b.WaitFor sel).options.Height = b.options.Height ∧
      (b.WaitFor sel).options.MarginTop = b.options.MarginTop ∧
      (b.WaitFor sel).options.MarginBottom = b.options.MarginBottom ∧
      (b.WaitFor sel).options.MarginLeft = b.options.MarginLeft ∧
      (b.WaitFor sel).options.MarginRight = b.options.MarginRight ∧
      (b.WaitFor sel).options.Landscape = b.options.Landscape ∧
      (b.WaitFor sel).options.PrintBackground = b.options.PrintBackground ∧
      (b.WaitFor sel).options.Scale = b.options.Scale ∧
      (b.WaitFor sel).options.DisplayHeaderFooter = b.options.DisplayHeaderFooter ∧
      (b.WaitFor sel).options.HeaderTemplate = b.options.HeaderTemplate ∧
      (b.WaitFor sel).options.FooterTemplate = b.options.FooterTemplate ∧
      (b.WaitFor sel).options.WaitForSelector = sel ∧
      (b.WaitFor sel).options.WaitTime = b.options.WaitTime ∧
      (b.WaitFor sel).options.Timeout = b.options.Timeout) ∧
    ((b.WaitTime d1).options.Format = b.options.Format ∧
      (b.WaitTime d1).options.Width = b.options.Width ∧
      (b.WaitTime d1).options.Height = b.options.Height ∧
      (b.WaitTime d1).options.MarginTop = b.options.MarginTop ∧
      (b.WaitTime d1).options.MarginBottom = b.options.MarginBottom ∧
      (b.WaitTime d1).options.MarginLeft = b.options.MarginLeft ∧
      (b.WaitTime d1).options.MarginRight = b.options.MarginRight ∧
      (b.WaitTime d1).options.Landscape = b.options.Landscape ∧
      (b.WaitTime d1).options.PrintBackground = b.options.PrintBackground ∧
      (b.WaitTime d1).options.Scale = b.options.Scale ∧
      (b.WaitTime d1).options.DisplayHeaderFooter = b.options.DisplayHeaderFooter ∧
      (b.WaitTime d1).options.HeaderTemplate = b.options.HeaderTemplate ∧
      (b.WaitTime d1).options.FooterTemplate = b.options.FooterTemplate ∧
      (b.WaitTime d1).options.WaitForSelector = b.options.WaitForSelector ∧
      (b.WaitTime d1).options.WaitTime = d1 ∧
      (b.WaitTime d1).options.Timeout = b.options.Timeout) ∧
    ((b.Timeout d2).options.Format = b.options.Format ∧
      (b.Timeout d2).options.Width = b.options.Width ∧
      (b.Timeout d2).options.Height = b.options.Height ∧
      (b.Timeout d2).options.MarginTop = b.options.MarginTop ∧
      (b.Timeout d2).options.MarginBottom = b.options.MarginBottom ∧
      (b.Timeout d2).options.MarginLeft = b.options.MarginLeft ∧
      (b.Timeout d2).options.MarginRight = b.options.MarginRight ∧
      (b.Timeout d2).options.Landscape = b.options.Landscape ∧
      (b.Timeout d2).options.PrintBackground = b.options.PrintBackground ∧
      (b.Timeout d2).options.Scale = b.options.Scale ∧
      (b.Timeout d2).options.DisplayHeaderFooter = b.options.DisplayHeaderFooter ∧
      (b.Timeout d2).options.HeaderTemplate = b.options.HeaderTemplate ∧
      (b.Timeout d2).options.FooterTemplate = b.options.FooterTemplate ∧
      (b.Timeout d2).options.WaitForSelector = b.options.WaitForSelector ∧
      (b.Timeout d2).options.WaitTime = b.options.WaitTime ∧
      (b.Timeout d2).options.Timeout = d2)
    := by
  (repeat' apply And.intro) <;> rfl

/-- **C10 counterexample**: a `Size` call whose width is not positive does
not make the conversion use the custom dimensions: after `Size 0 5` on the
default builder the print request's paper height is `0`, not the custom `5`
(the format is cleared, yet the custom dimensions are not taken up either,
because `generatePDF` requires both to be positive). -/
theorem size_nonpositive_counterexample :
    (WithOptions.Size 0 5).options.Format = "" ∧
    (WithOptions.Size 0 5).options.Width = 0 ∧
    (WithOptions.Size 0 5).options.Height = 5 ∧
    (printParams (WithOptions.Size 0 5).options).paperHeight = 0 ∧
    (printParams (WithOptions.Size 0 5).options).paperHeight ≠ 5 := by
  refine ⟨rfl, rfl, rfl, rfl, ?_⟩
  rw [show (printParams (WithOptions.Size 0 5).options).paperHeight = 0 from rfl]
  norm_num

/-- **C10 amended**: `Size width height` sets `Width` to `width`, `Height` to
`height`, and clears `Format` to the empty string; consequently a conversion
on the resulting options (no later `Format` call) takes its paper size from
the custom dimensions whenever both are positive, rather than from a named
format. -/
theorem size_sets_custom_dimensions (b : OptionsBuilder) (w h : ℚ)
    (hw : 0 < w) (hh : 0 < h) :
    (b.Size w h).options.Width = w ∧
    (b.Size w h).options.Height = h ∧
    (b.Size w h).options.Format = "" ∧
    (printParams (b.Size w h).options).paperWidth = w ∧
    (printParams (b.Size w h).options).paperHeight = h := by
  refine ⟨rfl, rfl, rfl, ?_, ?_⟩ <;>
    simp [printParams, paperSize, OptionsBuilder.Size, hw, hh]

/-- **C10 witness**: the amended statement at the default builder with the
concrete positive size 5 × 7. -/
theorem size_sets_custom_dimensions_witness :
    (WithOptions.Size 5 7).options.Width = 5 ∧
    (WithOptions.Size 5 7).options.Height = 7 ∧
    (WithOptions.Size 5 7).options.Format = "" ∧
    (printParams (WithOptions.Size 5 7).options).paperWidth = 5 ∧
    (printParams (WithOptions.Size 5 7).options).paperHeight = 7 :=
  size_sets_custom_dimensions WithOptions 5 7 (by norm_num) (by norm_num)

/-- **C2 counterexample**: the translation from `PDFOptions` to the
print-to-PDF request is not loss-free: two configuration records that differ
in the `Width` field (with the default `A4` format) are mapped to the same
request, so the `Width` information is dropped rather than carried into a
request field. -/
theorem options_to_request_not_lossless :
    printParams { DefaultOptions with Width := 1 } =
      printParams { DefaultOptions with Width := 2 } ∧
    ({ DefaultOptions with Width := 1 } : PDFOptions).Width ≠
      ({ DefaultOptions with Width := 2 } : PDFOptions).Width := by
  constructor
  · rfl
  · rw [show ({ DefaultOptions with Width := 1 } : PDFOptions).Width = 1 from rfl,
        show ({ DefaultOptions with Width := 2 } : PDFOptions).Width = 2 from rfl]
    norm_num

/-- **C2 amended**: the translation is field-by-field and value-preserving
for the margins, scale, orientation, background and header/footer template
fields; the paper size, however, is a derived value: it comes from the fixed
format table when `Format` is non-empty (size zero for unknown names, the
custom `Width`/`Height` being dropped), and from `Width`/`Height` only when
`Format` is empty and both are positive; the wait and timeout options are
not carried into the request at all. -/
theorem print_request_field_mapping (o : PDFOptions) :
    (printParams o).printBackground = o.PrintBackground ∧
    (printParams o).landscape = o.Landscape ∧
    (printParams o).displayHeaderFooter = o.DisplayHeaderFooter ∧
    (printParams o).scale = o.Scale ∧
    (printParams o).marginTop = o.MarginTop ∧
    (printParams o).marginBottom = o.MarginBottom ∧
    (printParams o).marginLeft = o.MarginLeft ∧
    (printParams o).marginRight = o.MarginRight ∧
    (printParams o).headerTemplate = o.HeaderTemplate ∧
    (printParams o).footerTemplate = o.FooterTemplate ∧
    ((printParams o).paperWidth, (printParams o).paperHeight) =
      (if o.Format ≠ "" then formatSize o.Format
       else if 0 < o.Width ∧ 0 < o.Height then (o.Width, o.Height) else (0, 0)) := by
  refine ⟨rfl, rfl, rfl, rfl, rfl, rfl, rfl, rfl, ?_, ?_, ?_⟩
  · by_cases hht : o.HeaderTemplate = "" <;> simp [printParams, hht]
  · by_cases hft : o.FooterTemplate = "" <;> simp [printParams, hft]
  · show ((paperSize o).1, (paperSize o).2) = _
    rfl

/-- **C9**: whenever `Format` is non-empty the custom `Width` and `Height`
are ignored entirely (the request is independent of them), and if that
non-empty format is none of `A4`, `A3`, `Letter`, `Legal`, `Tabloid`, the
request's paper width and height stay at zero. -/
theorem nonempty_format_ignores_custom_size (o : PDFOptions) (w h : ℚ)
    (hf : o.Format ≠ "") :
    printParams { o with Width := w, Height := h } = printParams o ∧
    (o.Format ≠ "A4" → o.Format ≠ "A3" → o.Format ≠ "Letter" → o.Format ≠ "Legal" →
      o.Format ≠ "Tabloid" →
      (printParams o).paperWidth = 0 ∧ (printParams o).paperHeight = 0) := by
  constructor
  · have hps : paperSize { o with Width := w, Height := h } = paperSize o := by
      simp only [paperSize]
      split_ifs with h0 <;> simp_all
    simp [printParams, hps]
  · intro h1 h2 h3 h4 h5
    refine ⟨?_, ?_⟩ <;>
      simp [printParams, paperSize, hf, h1, h2, h3, h4, h5]

/-- **C9 witness**: the statement at a record whose format is the unknown
non-empty name `Banana` and whose custom size is 3 × 4. -/
theorem nonempty_format_ignores_custom_size_witness :
    ({ DefaultOptions with Format := "Banana" } : PDFOptions).Format ≠ "" ∧
    printParams { { DefaultOptions with Format := "Banana" } with Width := 3, Height := 4 } =
      printParams { DefaultOptions with Format := "Banana" } ∧
    (printParams { DefaultOptions with Format := "Banana" }).paperWidth = 0 ∧
    (printParams { DefaultOptions with Format := "Banana" }).paperHeight = 0 := by
  have h := nonempty_format_ignores_custom_size
    { DefaultOptions with Format := "Banana" } 3 4 (by decide)
  have h2 := h.2 (by decide) (by decide) (by decide) (by decide) (by decide)
  exact ⟨by decide, h.1, h2.1, h2.2⟩

/-- Every command contributed by `waitForConditions` is a waiting command. -/
theorem waitForConditions_isWait (g : Generator) :
    ∀ c ∈ g.waitForConditions, c.isWait = true := by
  intro c hc
  by_cases hs : g.options.WaitForSelector = "" <;> by_cases hw : g.options.WaitTime > 0 <;>
    simp [Generator.waitForConditions, hs, hw] at hc <;>
    rcases hc with rfl | rfl <;> rfl

/-- The submitted command program never repeats a command. -/
theorem genProgram_nodup (g : Generator) (target : String) :
    (g.genProgram target).Nodup := by
  by_cases hs : g.options.WaitForSelector = "" <;> by_cases hw : g.options.WaitTime > 0 <;>
    simp [Generator.genProgram, Generator.waitForConditions, hs, hw]

/-- The issued commands of a conversion are an initial segment of the
submitted program. -/
theorem runConversion_front (g : Generator) (br : Browser) (target : String) :
    ∃ rest, (g.runConversion br target).1 ++ rest = g.genProgram target := by
  dsimp only [Generator.runConversion, Generator.genProgram]
  cases h1 : (runCmds br (Cmd.navigate target :: Cmd.waitReady "body" :: g.waitForConditions)).2 with
  | some e =>
    obtain ⟨rest, hr⟩ :=
      runCmds_front br (Cmd.navigate target :: Cmd.waitReady "body" :: g.waitForConditions)
    refine ⟨rest ++ [Cmd.printToPDF (printParams g.options)], ?_⟩
    rw [← List.append_assoc, hr]
    simp
  | none =>
    refine ⟨[], ?_⟩
    rw [List.append_nil, runCmds_complete br _ h1]
    simp

/-- When no command fails, a conversion issues exactly the submitted
program. -/
theorem runConversion_ok_trace (g : Generator) (br : Browser) (target : String)
    (h : (runCmds br (Cmd.navigate target :: Cmd.waitReady "body" :: g.waitForConditions)).2
      = none) :
    (g.runConversion br target).1 = g.genProgram target := by
  dsimp only [Generator.runConversion, Generator.genProgram]
  rw [h, runCmds_complete br _ h]
  simp

/-- A `FromHTML` call with a nil error ran all pre-print commands without
failure. -/
theorem fromHTML_ok_pre (g : Generator) (br : Browser) (htmlContent : String)
    (h : (g.FromHTML br htmlContent).err = none) :
    (runCmds br (Cmd.navigate (dataURL htmlContent) :: Cmd.waitReady "body" ::
      g.waitForConditions)).2 = none := by
  revert h
  dsimp only [Generator.FromHTML, Generator.runConversion]
  cases h1 : (runCmds br (Cmd.navigate (dataURL htmlContent) :: Cmd.waitReady "body" ::
      g.waitForConditions)).2 with
  | some e => intro h; simp at h
  | none => intro _; rfl

/-- A `FromURL` call with a nil error ran all pre-print commands without
failure. -/
theorem fromURL_ok_pre (g : Generator) (br : Browser) (url : String)
    (h : (g.FromURL br url).err = none) :
    (runCmds br (Cmd.navigate url :: Cmd.waitReady "body" :: g.waitForConditions)).2
      = none := by
  revert h
  dsimp only [Generator.FromURL, Generator.runConversion]
  cases h1 : (runCmds br (Cmd.navigate url :: Cmd.waitReady "body" ::
      g.waitForConditions)).2 with
  | some e => intro h; simp at h
  | none => intro _; rfl

/-- Outcome analysis of one conversion run: either every command succeeded
and the run returns the browser's print bytes, or the run returns an
error. -/
theorem runConversion_cases (g : Generator) (br : Browser) (target : String) :
    (∃ b, br (Cmd.printToPDF (printParams g.options)) = Except.ok b ∧
      (g.runConversion br target).2 = Except.ok b) ∨
    (∃ e, (g.runConversion br target).2 = Except.error e) := by
  dsimp only [Generator.runConversion, Generator.generatePDF]
  cases h1 : (runCmds br (Cmd.navigate target :: Cmd.waitReady "body" ::
      g.waitForConditions)).2 with
  | some e => exact Or.inr ⟨e, rfl⟩
  | none =>
    cases h2 : br (Cmd.printToPDF (printParams g.options)) with
    | error e => exact Or.inr ⟨"failed to generate PDF: " ++ e, rfl⟩
    | ok b => exact Or.inl ⟨b, rfl, rfl⟩

/-- An erroring conversion run got its error from a command it issued,
either verbatim (pre-print failure) or wrapped once by `generatePDF`. -/
theorem runConversion_error_cases (g : Generator) (br : Browser) (target e : String)
    (h : (g.runConversion br target).2 = Except.error e) :
    ∃ c ∈ (g.runConversion br target).1, ∃ e0, br c = Except.error e0 ∧
      (e = e0 ∨ e = "failed to generate PDF: " ++ e0) := by
  revert h
  dsimp only [Generator.runConversion, Generator.generatePDF]
  cases h1 : (runCmds br (Cmd.navigate target :: Cmd.waitReady "body" ::
      g.waitForConditions)).2 with
  | some e1 =>
    intro h
    simp only [Except.error.injEq] at h
    subst h
    obtain ⟨c, hc, hbr⟩ := runCmds_error_source br _ e1 h1
    exact ⟨c, hc, e1, hbr, Or.inl rfl⟩
  | none =>
    cases h2 : br (Cmd.printToPDF (printParams g.options)) with
    | error e0 =>
      intro h
      simp only [Except.error.injEq] at h
      subst h
      refine ⟨Cmd.printToPDF (printParams g.options), ?_, e0, h2, Or.inr rfl⟩
      simp
    | ok b =>
      intro h
      simp at h

/-- **C1**: every conversion call submits exactly the fixed command sequence
navigate → wait (readiness plus configured wait conditions, all of them
waiting commands) → print-to-PDF, in this order; the program contains no
other remote command and no repetition, the commands actually issued are
always an initial segment of it, and a call whose error is nil issued
exactly the whole sequence in order. -/
theorem conversion_command_sequence (g : Generator) (br : Browser)
    (htmlContent url : String) :
    g.genProgram (dataURL htmlContent) =
      Cmd.navigate (dataURL htmlContent) :: ((Cmd.waitReady "body" :: g.waitForConditions)
        ++ [Cmd.printToPDF (printParams g.options)]) ∧
    g.genProgram url =
      Cmd.navigate url :: ((Cmd.waitReady "body" :: g.waitForConditions)
        ++ [Cmd.printToPDF (printParams g.options)]) ∧
    (∀ c ∈ Cmd.waitReady "body" :: g.waitForConditions, c.isWait = true) ∧
    (g.genProgram (dataURL htmlContent)).Nodup ∧
    (g.genProgram url).Nodup ∧
    (∃ rest, g.FromHTMLTrace br htmlContent ++ rest = g.genProgram (dataURL htmlContent)) ∧
    (∃ rest, g.FromURLTrace br url ++ rest = g.genProgram url) ∧
    ((g.FromHTML br htmlContent).err = none →
      g.FromHTMLTrace br htmlContent = g.genProgram (dataURL htmlContent)) ∧
    ((g.FromURL br url).err = none →
      g.FromURLTrace br url = g.genProgram url) := by
  refine ⟨rfl, rfl, ?_, genProgram_nodup g _, genProgram_nodup g _,
    runConversion_front g br _, runConversion_front g br _, ?_, ?_⟩
  · intro c hc
    rcases List.mem_cons.mp hc with rfl | hc2
    · rfl
    · exact waitForConditions_isWait g c hc2
  · intro h
    exact runConversion_ok_trace g br _ (fromHTML_ok_pre g br htmlContent h)
  · intro h
    exact runConversion_ok_trace g br _ (fromURL_ok_pre g br url h)

/-- **C1 witness**: on a browser that answers every command successfully,
the default generator issues exactly the full fixed sequence for both
conversions. -/
theorem conversion_command_sequence_witness :
    (NewGenerator none).FromHTMLTrace okBr "x" =
      (NewGenerator none).genProgram (dataURL "x") ∧
    (NewGenerator none).FromURLTrace okBr "u" = (NewGenerator none).genProgram "u" := by
  have h := conversion_command_sequence (NewGenerator none) okBr "x" "u"
  exact ⟨h.2.2.2.2.2.2.2.1 rfl, h.2.2.2.2.2.2.2.2 rfl⟩

/-- **C4**: a conversion call returns exactly one of two outcomes: the PDF
bytes the browser produced for the print command together with a nil error,
or a nil byte slice together with an error; never both, never neither. -/
theorem conversion_result_dichotomy (g : Generator) (br : Browser)
    (htmlContent url : String) :
    ((∃ b, br (Cmd.printToPDF (printParams g.options)) = Except.ok b ∧
        g.FromHTML br htmlContent = { data := some b, err := none }) ∨
      (∃ e, g.FromHTML br htmlContent = { data := none, err := some e })) ∧
    ((∃ b, br (Cmd.printToPDF (printParams g.options)) = Except.ok b ∧
        g.FromURL br url = { data := some b, err := none }) ∨
      (∃ e, g.FromURL br url = { data := none, err := some e })) := by
  constructor
  · rcases runConversion_cases g br (dataURL htmlContent) with ⟨b, hb, h2⟩ | ⟨e, h2⟩
    · refine Or.inl ⟨b, hb, ?_⟩
      dsimp only [Generator.FromHTML]
      rw [h2]
    · refine Or.inr ⟨"failed to generate PDF: " ++ e, ?_⟩
      dsimp only [Generator.FromHTML]
      rw [h2]
  · rcases runConversion_cases g br url with ⟨b, hb, h2⟩ | ⟨e, h2⟩
    · refine Or.inl ⟨b, hb, ?_⟩
      dsimp only [Generator.FromURL]
      rw [h2]
    · refine Or.inr ⟨"failed to generate PDF from URL: " ++ e, ?_⟩
      dsimp only [Generator.FromURL]
      rw [h2]

/-- **C3 counterexample**: on a browser whose navigation fails with `boom`,
`FromHTML` returns the error message `failed to generate PDF: boom` (and
`FromURL` returns `failed to generate PDF from URL: boom`), not the
browser's error `boom` verbatim. -/
theorem error_not_verbatim_counterexample :
    navFailBr (Cmd.navigate (dataURL "x")) = Except.error "boom" ∧
    (NewGenerator none).FromHTML navFailBr "x" =
      { data := none, err := some "failed to generate PDF: boom" } ∧
    (NewGenerator none).FromHTML navFailBr "x" ≠ { data := none, err := some "boom" } ∧
    (NewGenerator none).FromURL navFailBr "u" =
      { data := none, err := some "failed to generate PDF from URL: boom" } := by
  refine ⟨rfl, rfl, ?_, rfl⟩
  intro h
  have h2 := congrArg GoResult.err h
  rw [show ((NewGenerator none).FromHTML navFailBr "x").err
      = some "failed to generate PDF: boom" from rfl] at h2
  exact absurd h2 (by decide)

/-- **C3 amended**: every error a conversion call returns originates in a
command issued to the external browser client, with no retry (the issued
trace has no repetition) and no recovery, but it is not returned verbatim:
`FromHTML` wraps the run error as `failed to generate PDF: <err>` and
`FromURL` as `failed to generate PDF from URL: <err>`, where `<err>` is the
browser's message for pre-print failures and is itself already wrapped once
by `generatePDF` for print failures. -/
theorem errors_wrapped_not_verbatim (g : Generator) (br : Browser)
    (htmlContent url s : String) :
    ((g.FromHTML br htmlContent).err = some s →
      ∃ c ∈ g.FromHTMLTrace br htmlContent, ∃ e0, br c = Except.error e0 ∧
        (s = "failed to generate PDF: " ++ e0 ∨
          s = "failed to generate PDF: " ++ ("failed to generate PDF: " ++ e0))) ∧
    ((g.FromURL br url).err = some s →
      ∃ c ∈ g.FromURLTrace br url, ∃ e0, br c = Except.error e0 ∧
        (s = "failed to generate PDF from URL: " ++ e0 ∨
          s = "failed to generate PDF from URL: " ++ ("failed to generate PDF: " ++ e0))) ∧
    (g.FromHTMLTrace br htmlContent).Nodup ∧
    (g.FromURLTrace br url).Nodup := by
  refine ⟨?_, ?_, ?_, ?_⟩
  · intro h
    have hre : ∃ e, (g.runConversion br (dataURL htmlContent)).2 = Except.error e ∧
        s = "failed to generate PDF: " ++ e := by
      revert h
      dsimp only [Generator.FromHTML]
      cases hr : (g.runConversion br (dataURL htmlContent)).2 with
      | error e =>
        intro h
        simp only [Option.some.injEq] at h
        exact ⟨e, rfl, h.symm⟩
      | ok b => intro h; simp at h
    obtain ⟨e, hr, hs⟩ := hre
    obtain ⟨c, hc, e0, hbr, he⟩ := runConversion_error_cases g br _ e hr
    refine ⟨c, hc, e0, hbr, ?_⟩
    rcases he with rfl | rfl
    · exact Or.inl hs
    · exact Or.inr hs
  · intro h
    have hre : ∃ e, (g.runConversion br url).2 = Except.error e ∧
        s = "failed to generate PDF from URL: " ++ e := by
      revert h
      dsimp only [Generator.FromURL]
      cases hr : (g.runConversion br url).2 with
      | error e =>
        intro h
        simp only [Option.some.injEq] at h
        exact ⟨e, rfl, h.symm⟩
      | ok b => intro h; simp at h
    obtain ⟨e, hr, hs⟩ := hre
    obtain ⟨c, hc, e0, hbr, he⟩ := runConversion_error_cases g br _ e hr
    refine ⟨c, hc, e0, hbr, ?_⟩
    rcases he with rfl | rfl
    · exact Or.inl hs
    · exact Or.inr hs
  · obtain ⟨rest, hrest⟩ := runConversion_front g br (dataURL htmlContent)
    have hnd := genProgram_nodup g (dataURL htmlContent)
    rw [← hrest] at hnd
    exact hnd.of_append_left
  · obtain ⟨rest, hrest⟩ := runConversion_front g br url
    have hnd := genProgram_nodup g url
    rw [← hrest] at hnd
    exact hnd.of_append_left

/-- **C3 amended witness**: the amended statement at the navigation-failing
browser: the returned message is the wrap of the browser's `boom`. -/
theorem errors_wrapped_not_verbatim_witness :
    ∃ c ∈ (NewGenerator none).FromHTMLTrace navFailBr "x", ∃ e0,
      navFailBr c = Except.error e0 ∧
      ("failed to generate PDF: boom" = "failed to generate PDF: " ++ e0 ∨
        "failed to generate PDF: boom"
          = "failed to generate PDF: " ++ ("failed to generate PDF: " ++ e0)) :=
  (errors_wrapped_not_verbatim (NewGenerator none) navFailBr "x" "u"
    "failed to generate PDF: boom").1 rfl

/-- **C5**: a conversion call only reads the generator's options record: the
state-threaded forms of `FromHTML` and `FromURL` return the same result as
the direct forms together with the options record unchanged (hence every
field of the `PDFOptions` is identical before and after the call, whether
the call succeeds or fails). -/
theorem conversion_reads_options_only (g : Generator) (br : Browser)
    (htmlContent url : String) :
    g.FromHTMLS br htmlContent = (g.FromHTML br htmlContent, g.options) ∧
    g.FromURLS br url = (g.FromURL br url, g.options) := by
  constructor
  · dsimp only [Generator.FromHTMLS, Generator.waitForConditionsS, Generator.generatePDFS,
      Generator.generatePDF, Generator.FromHTML, Generator.runConversion]
    cases h1 : (runCmds br (Cmd.navigate (dataURL htmlContent) :: Cmd.waitReady "body" ::
        g.waitForConditions)).2 with
    | some e => rfl
    | none => cases h2 : br (Cmd.printToPDF (printParams g.options)) <;> rfl
  · dsimp only [Generator.FromURLS, Generator.waitForConditionsS, Generator.generatePDFS,
      Generator.generatePDF, Generator.FromURL, Generator.runConversion]
    cases h1 : (runCmds br (Cmd.navigate url :: Cmd.waitReady "body" ::
        g.waitForConditions)).2 with
    | some e => rfl
    | none => cases h2 : br (Cmd.printToPDF (printParams g.options)) <;> rfl
